import Mathlib

/-!
Shallow embedding of `app.py` of the UbiUnraid repository: a Flask service
that reconciles running Docker containers (MAC/IP pairs) with a UniFi
controller's client list, and two HTTP handlers (`/api/status`,
`/api/apply`) composing inventory read, controller authentication,
client listing and a create-or-update ("upsert") of fixed-IP reservations.

Python dictionaries are modelled as association lists with unique keys
(`dinsert` replaces in place, `dget` looks up); JSON values as `JVal`;
the network is modelled by an `Env` record giving each outbound call's
outcome, and each handler returns its HTTP response together with the
list of network calls it attempted, in order.
-/

namespace UbiUnraid

/-- JSON-like values appearing in controller records and request bodies. -/
inductive JVal where
  | str (s : String)
  | bool (b : Bool)
  | num (n : Int)
  | null
deriving DecidableEq, Repr

/-- Python truthiness of a JSON value (`if v:`). -/
def JVal.truthy : JVal → Bool
  | .str s => s != ""
  | .bool b => b
  | .num n => n != 0
  | .null => false

/-- A JSON object / Python dict, as an association list with unique keys. -/
abbrev Rec := List (String × JVal)

/-- Python `d.get(k)`: the value at the first (only) occurrence of `k`. -/
def dget {α : Type} : List (String × α) → String → Option α
  | [], _ => none
  | p :: rest, k => if p.1 = k then some p.2 else dget rest k

/-- Python `d[k] = v` on a dict whose keys are unique: replace in place,
else append. -/
def dinsert {α : Type} : List (String × α) → String → α → List (String × α)
  | [], k, v => [(k, v)]
  | p :: rest, k, v => if p.1 = k then (k, v) :: rest else p :: dinsert rest k v

/-- Python `{**a, **b}`: start from `a` and insert every pair of `b`. -/
def dmerge {α : Type} (a b : List (String × α)) : List (String × α) :=
  b.foldl (fun d p => dinsert d p.1 p.2) a

/-- Python `d.get(k, "")` for string-valued fields (missing and non-string
values give `""`, matching the code's use on string fields). -/
def dgetS (d : Rec) (k : String) : String :=
  match dget d k with
  | some (JVal.str s) => s
  | _ => ""

/-- Truthiness of `d.get(k)` (missing key is `None`, hence falsy). -/
def otruthy (o : Option JVal) : Bool :=
  match o with
  | some v => v.truthy
  | none => false

/-- Python `x or y` on an optional JSON value: first truthy wins. -/
def pyOrJ (a : Option JVal) (b : JVal) : JVal :=
  match a with
  | some v => if v.truthy then v else b
  | none => b

/-- Python `str.lower()` (per-character basic-latin lowercasing, the case
arising for MAC addresses). -/
def pyLower (s : String) : String :=
  String.mk (s.data.map Char.toLower)

/-! ## Configuration (module-level environment constants of `app.py`) -/

/-- The environment-sourced configuration read at module load:
`UNIFI_HOST`, `UNIFI_USERNAME`, `UNIFI_PASSWORD`, `UNIFI_SITE`,
`UNIFI_NETWORK_ID`, `VERIFY_SSL`, `UNIFI_API_KEY`. An absent variable is
the empty string (the code defaults each to `""`). -/
structure Config where
  host : String
  username : String
  password : String
  site : String
  networkId : String
  verifySsl : Bool
  apiKey : String
deriving DecidableEq, Repr

/-- The message of `ensure_configured`. -/
def configErrorMsg : String := "UNIFI_HOST and UNIFI_API_KEY must be set."

/-- `ensure_configured`: `if not UNIFI_HOST or not UNIFI_API_KEY: return msg`. -/
def ensure_configured (cfg : Config) : Option String :=
  if cfg.host = "" ∨ cfg.apiKey = "" then some configErrorMsg else none

/-! ## Inventory Reader (`get_containers`) -/

/-- One attached network interface of a Docker container
(`NetworkSettings.Networks[name]`): its `MacAddress` and `IPAddress`,
either possibly absent. -/
structure NetInfo where
  macAddress : Option String
  ipAddress : Option String
deriving DecidableEq, Repr

/-- A running container as the Docker API reports it: a name and its
attached networks in order. -/
structure DockerContainer where
  name : String
  networks : List (String × NetInfo)
deriving DecidableEq, Repr

/-- The per-interface entry `get_containers` builds:
`{name, network, mac (lowercased), ip}`. -/
structure ContainerEntry where
  name : String
  network : String
  mac : String
  ip : String
deriving DecidableEq, Repr

/-- Python truthiness of an optional string (`if not mac or not ip`). -/
def strTruthy (o : Option String) : Bool :=
  match o with
  | some s => s != ""
  | none => false

/-- The body of `get_containers`' inner loop: skip an interface missing
MAC or IP, otherwise append the entry to the list and index it by its
(lowercased) MAC, last insertion winning. -/
def netStep (cname : String)
    (acc : List ContainerEntry × List (String × ContainerEntry))
    (p : String × NetInfo) :
    List ContainerEntry × List (String × ContainerEntry) :=
  if strTruthy p.2.macAddress ∧ strTruthy p.2.ipAddress then
    let entry : ContainerEntry :=
      ⟨cname, p.1, pyLower (p.2.macAddress.getD ""), p.2.ipAddress.getD ""⟩
    (acc.1 ++ [entry], dinsert acc.2 entry.mac entry)
  else acc

/-- `get_containers`: the ordered entry list and the MAC-keyed index,
built by the nested loops over running containers and their networks. -/
def get_containers (cs : List DockerContainer) :
    List ContainerEntry × List (String × ContainerEntry) :=
  cs.foldl (fun acc c => c.networks.foldl (netStep c.name) acc) ([], [])

/-! ## Controller Client Repository (`fetch_clients`) -/

/-- One step of the dict comprehension of `fetch_clients`: index a record
by its lowercased MAC, dropping it when its `mac` field is falsy. -/
def fetchStep (acc : List (String × Rec)) (c : Rec) : List (String × Rec) :=
  if otruthy (dget c "mac") then dinsert acc (pyLower (dgetS c "mac")) c else acc

/-- The dict comprehension of `fetch_clients`: index the returned records
by lowercased MAC, dropping records whose `mac` field is falsy. -/
def fetch_clients (data : List Rec) : List (String × Rec) :=
  data.foldl fetchStep []

/-! ## Reconciliation / Upsert Engine (`upsert_client`) -/

/-- The outbound create/update request `upsert_client` issues. -/
inductive UpsertRequest where
  | put (url : String) (payload : Rec)
  | post (url : String) (payload : Rec)
deriving DecidableEq, Repr

/-- `network_id` resolution:
`(existing or {}).get("network_id") or (existing or {}).get("network") or UNIFI_NETWORK_ID`. -/
def resolveNetworkId (cfg : Config) (existing : Option Rec) : JVal :=
  pyOrJ (dget (existing.getD []) "network_id")
    (pyOrJ (dget (existing.getD []) "network") (.str cfg.networkId))

/-- The `desired` dict literal of `upsert_client`. -/
def desiredFields (container : ContainerEntry) (network_id : JVal) : Rec :=
  [("name", .str container.name), ("fixed_ip", .str container.ip),
   ("use_fixedip", .bool true), ("network_id", network_id)]

/-- The error message raised when no `network_id` resolves. -/
def networkIdErrorMsg (mac : String) : String :=
  "network_id is required to create/update " ++ mac ++
    ". Set UNIFI_NETWORK_ID or ensure the client already has network_id."

/-- `upsert_client`, split at the transport boundary: it returns the
HTTP request it issues (URL and JSON payload) and the success message,
or the `ValueError` message when no `network_id` resolves. -/
def upsert_client (cfg : Config) (container : ContainerEntry)
    (existing : Option Rec) : Except String (UpsertRequest × String) :=
  let mac := pyLower container.mac
  let network_id := resolveNetworkId cfg existing
  if network_id.truthy then
    let desired := desiredFields container network_id
    match existing with
    | some e =>
      .ok (.put (cfg.host ++ "/proxy/network/api/s/" ++ cfg.site ++
              "/rest/user/" ++ dgetS e "_id")
            (dmerge e desired),
          "Updated " ++ mac ++ " -> " ++ container.name ++ " @ " ++ container.ip)
    | none =>
      .ok (.post (cfg.host ++ "/proxy/network/api/s/" ++ cfg.site ++ "/rest/user")
            (dmerge [("mac", JVal.str mac)] desired),
          "Created " ++ mac ++ " -> " ++ container.name ++ " @ " ++ container.ip)
  else
    .error (networkIdErrorMsg mac)

/-! ## HTTP handlers (`api_status`, `api_apply`)

Each outbound call's outcome is given by an `Env`; a handler returns the
HTTP response and the ordered list of network calls it attempted. -/

/-- The network calls a handler can attempt. -/
inductive NetCall where
  | inventoryRead
  | primaryLogin
  | secondaryLogin
  | listClients
  | upsertWrite
deriving DecidableEq, Repr

/-- A failed outbound HTTP call: the upstream status when a response
exists (`requests.HTTPError` with a response), and the error's text. -/
structure HttpErr where
  status : Option Nat
  text : String
deriving DecidableEq, Repr

/-- The outcomes the outside world gives each outbound call of one
request: the Docker inventory, the primary and secondary logins, the
client-listing GET, and the upsert's PUT/POST. -/
structure Env where
  containers : List DockerContainer
  loginResult : Except HttpErr Unit
  loginNetworkResult : Except HttpErr Unit
  fetchResult : Except HttpErr (List Rec)
  writeResult : Except HttpErr Unit

/-- `login`: with an API key configured the cookie login is skipped
entirely, otherwise the login POST's outcome decides. -/
def login (cfg : Config) (env : Env) : Except HttpErr Unit :=
  if cfg.apiKey = "" then env.loginResult else .ok ()

/-- The network calls `login` makes (none in API-key mode). -/
def authCalls (cfg : Config) : List NetCall :=
  if cfg.apiKey = "" then [.primaryLogin] else []

/-- The network calls `login_network` makes (none in API-key mode). -/
def netLoginCalls (cfg : Config) : List NetCall :=
  if cfg.apiKey = "" then [.secondaryLogin] else []

/-- One row of the `router_clients` list `api_status` returns. -/
structure RouterRow where
  mac : String
  name : JVal
  hostname : JVal
  fixed_ip : JVal
  use_fixedip : JVal
deriving DecidableEq, Repr

/-- The row built for one indexed controller client. -/
def routerRow (p : String × Rec) : RouterRow :=
  ⟨p.1,
   pyOrJ (dget p.2 "name") (pyOrJ (dget p.2 "hostname") (.str "")),
   pyOrJ (dget p.2 "hostname") (.str ""),
   pyOrJ (dget p.2 "fixed_ip") (.str ""),
   (dget p.2 "use_fixedip").getD (.bool false)⟩

/-- The JSON body of a successful `api_status` response. -/
structure StatusBody where
  containers : List ContainerEntry
  router_clients : List RouterRow
  configured : Bool
  verify_ssl : Bool
  unifi_host : String
deriving DecidableEq, Repr

/-- An HTTP response of either handler: an error with its status code
and `error` message, or a success body. -/
inductive ApiResponse where
  | err (status : Nat) (msg : String)
  | okApply (message : String)
  | okStatus (body : StatusBody)
deriving DecidableEq, Repr

/-- `GET /api/status`: configuration check, inventory read, session
login (secondary login's outcome deliberately ignored), client listing;
any exception in the session block yields 502. -/
def api_status (cfg : Config) (env : Env) : ApiResponse × List NetCall :=
  match ensure_configured cfg with
  | some e => (.err 500 e, [])
  | none =>
    let inv := get_containers env.containers
    let t1 := [NetCall.inventoryRead] ++ authCalls cfg
    match login cfg env with
    | .error e => (.err 502 ("Unable to reach UniFi: " ++ e.text), t1)
    | .ok _ =>
      let t2 := t1 ++ netLoginCalls cfg
      match env.fetchResult with
      | .error e => (.err 502 ("Unable to reach UniFi: " ++ e.text), t2 ++ [.listClients])
      | .ok data =>
        let clients := fetch_clients data
        (.okStatus ⟨inv.1, clients.map routerRow, true, cfg.verifySsl, cfg.host⟩,
         t2 ++ [.listClients])

/-- The MAC `api_apply` extracts from the request body:
`(body.get("mac") or "").lower()` after the silent JSON parse's
`or {}` default. -/
def requestMac (body : Option Rec) : String :=
  pyLower (dgetS (body.getD []) "mac")

/-- The session block of `api_apply` (inside its `try`): login, the
ignored secondary login, client listing, and the upsert.
`requests.HTTPError` mirrors the upstream status when a response
exists, other exceptions give 502. -/
def applySession (cfg : Config) (env : Env) (mac : String)
    (container : ContainerEntry) : ApiResponse × List NetCall :=
  let t1 := [NetCall.inventoryRead] ++ authCalls cfg
  match login cfg env with
  | .error e => (.err (e.status.getD 502) e.text, t1)
  | .ok _ =>
    let t2 := t1 ++ netLoginCalls cfg
    match env.fetchResult with
    | .error e => (.err (e.status.getD 502) e.text, t2 ++ [.listClients])
    | .ok data =>
      match upsert_client cfg container (dget (fetch_clients data) mac) with
      | .error msg => (.err 502 msg, t2 ++ [.listClients])
      | .ok rm =>
        match env.writeResult with
        | .error e => (.err (e.status.getD 502) e.text,
                       t2 ++ [.listClients, .upsertWrite])
        | .ok _ => (.okApply rm.2, t2 ++ [.listClients, .upsertWrite])

/-- `POST /api/apply`: configuration check, silent JSON parse defaulting
to the empty object, `mac` validation, fresh inventory lookup, then the
session block. -/
def api_apply (cfg : Config) (env : Env) (body : Option Rec) :
    ApiResponse × List NetCall :=
  match ensure_configured cfg with
  | some e => (.err 500 e, [])
  | none =>
    let mac := requestMac body
    if mac = "" then (.err 400 "mac is required", [])
    else
      match dget (get_containers env.containers).2 mac with
      | none => (.err 404 ("No running container with MAC " ++ mac), [.inventoryRead])
      | some container => applySession cfg env mac container

/-! ## Dictionary laws -/

/-- The value at the last pair of the list carrying key `k`. -/
def lastKV {α : Type} : List (String × α) → String → Option α
  | [], _ => none
  | p :: rest, k =>
    match lastKV rest k with
    | some v => some v
    | none => if p.1 = k then some p.2 else none

theorem dget_dinsert {α : Type} (d : List (String × α)) (k : String) (v : α)
    (q : String) :
    dget (dinsert d k v) q = if k = q then some v else dget d q := by
  induction d with
  | nil => simp [dinsert, dget]
  | cons p rest ih =>
    by_cases hpk : p.1 = k
    · subst hpk
      simp only [dinsert, if_pos rfl, dget]
      by_cases hq : p.1 = q <;> simp [hq]
    · simp only [dinsert, if_neg hpk, dget, ih]
      by_cases hpq : p.1 = q
      · have hk : ¬ k = q := fun h => hpk (h ▸ hpq)
        simp [hpq, hk]
      · simp [hpq]

theorem dget_dmerge {α : Type} (b a : List (String × α)) (q : String) :
    dget (dmerge a b) q =
      match lastKV b q with
      | some v => some v
      | none => dget a q := by
  induction b generalizing a with
  | nil => simp [dmerge, lastKV]
  | cons p rest ih =>
    have hstep : dmerge a (p :: rest) = dmerge (dinsert a p.1 p.2) rest := rfl
    rw [hstep, ih, dget_dinsert]
    cases hl : lastKV rest q with
    | some v => simp [lastKV, hl]
    | none =>
      by_cases hpq : p.1 = q <;> simp [lastKV, hl, hpq]

/-! ## Lowercasing -/

theorem char_toNat_ofNat_valid {n : Nat} (h : n.isValidChar) :
    (Char.ofNat n).toNat = n := by
  simp [Char.ofNat, dif_pos h, Char.ofNatAux, Char.toNat, UInt32.toNat]

theorem toLower_eq_pos {c : Char} (h : c.toNat ≥ 65 ∧ c.toNat ≤ 90) :
    c.toLower = Char.ofNat (c.toNat + 32) := by
  simp only [Char.toLower]
  exact if_pos h

theorem toLower_eq_neg {c : Char} (h : ¬(c.toNat ≥ 65 ∧ c.toNat ≤ 90)) :
    c.toLower = c := by
  simp only [Char.toLower]
  exact if_neg h

theorem toLower_toLower (c : Char) : c.toLower.toLower = c.toLower := by
  by_cases h : c.toNat ≥ 65 ∧ c.toNat ≤ 90
  · have ht : (Char.ofNat (c.toNat + 32)).toNat = c.toNat + 32 :=
      char_toNat_ofNat_valid (Or.inl (by omega))
    rw [toLower_eq_pos h, toLower_eq_neg (by rw [ht]; omega)]
  · rw [toLower_eq_neg h, toLower_eq_neg h]

theorem pyLower_idem (s : String) : pyLower (pyLower s) = pyLower s := by
  simp only [pyLower, List.map_map]
  exact congrArg String.mk (List.map_congr_left fun a _ => toLower_toLower a)

/-! ## Configuration helpers -/

theorem ensure_configured_none {cfg : Config} :
    ensure_configured cfg = none ↔ (cfg.host ≠ "" ∧ cfg.apiKey ≠ "") := by
  unfold ensure_configured
  by_cases h : cfg.host = "" ∨ cfg.apiKey = "" <;> simp [h] <;> tauto

theorem login_of_configured {cfg : Config} (env : Env)
    (h : ensure_configured cfg = none) :
    login cfg env = .ok () ∧ authCalls cfg = [] ∧ netLoginCalls cfg = [] := by
  have hk : cfg.apiKey ≠ "" := (ensure_configured_none.mp h).2
  simp [login, authCalls, netLoginCalls, hk]

/-! ## Controller index laws -/

theorem dget_fetch_clients (data : List Rec) (m : String) (c : Rec)
    (h : dget (fetch_clients data) m = some c) :
    otruthy (dget c "mac") = true ∧ m = pyLower (dgetS c "mac") := by
  suffices H : ∀ (acc : List (String × Rec)),
      (∀ m c, dget acc m = some c →
        otruthy (dget c "mac") = true ∧ m = pyLower (dgetS c "mac")) →
      ∀ m c,
        dget (data.foldl fetchStep acc) m = some c →
        otruthy (dget c "mac") = true ∧ m = pyLower (dgetS c "mac") by
    exact H [] (by intro m c hc; simp [dget] at hc) m c h
  clear h m c
  induction data with
  | nil => intro acc hacc m c h; exact hacc m c h
  | cons d rest ih =>
    intro acc hacc m c h
    rw [List.foldl_cons] at h
    refine ih _ ?_ m c h
    intro m c hc
    unfold fetchStep at hc
    by_cases hd : otruthy (dget d "mac") = true
    · rw [if_pos hd, dget_dinsert] at hc
      by_cases hm : pyLower (dgetS d "mac") = m
      · rw [if_pos hm] at hc
        cases hc
        exact ⟨hd, hm.symm⟩
      · rw [if_neg hm] at hc
        exact hacc m c hc
    · rw [if_neg hd] at hc
      exact hacc m c hc

/-! ## Inventory Reader characterization -/

/-- Declarative reading of the spec's Inventory Reader contract (the
refinement side of the claim): for one workload and one attached
interface, the single emitted entry when both MAC and IP are assigned
and non-empty, `none` otherwise. -/
def inventoryEntrySpec (cname : String) (p : String × NetInfo) :
    Option ContainerEntry :=
  match p.2.macAddress, p.2.ipAddress with
  | some m, some i =>
    if m ≠ "" ∧ i ≠ "" then some ⟨cname, p.1, pyLower m, i⟩ else none
  | some _, none => none
  | none, _ => none

/-- Declarative entry list: one entry per qualifying
(container, attached-network) pair, in traversal order. -/
def containersSpec (cs : List DockerContainer) : List ContainerEntry :=
  cs.flatMap (fun c => c.networks.filterMap (inventoryEntrySpec c.name))

/-- Index a list of entries by MAC, in order (later insertions win). -/
def indexOfEntries (l : List ContainerEntry)
    (d : List (String × ContainerEntry)) : List (String × ContainerEntry) :=
  l.foldl (fun d e => dinsert d e.mac e) d

/-- The last entry of the list with the given MAC ("last one wins"). -/
def lastMac : List ContainerEntry → String → Option ContainerEntry
  | [], _ => none
  | e :: rest, m =>
    match lastMac rest m with
    | some x => some x
    | none => if e.mac = m then some e else none

theorem netStep_eq (cname : String)
    (acc : List ContainerEntry × List (String × ContainerEntry))
    (p : String × NetInfo) :
    netStep cname acc p =
      match inventoryEntrySpec cname p with
      | some e => (acc.1 ++ [e], dinsert acc.2 e.mac e)
      | none => acc := by
  obtain ⟨pname, mo, io⟩ := p
  cases mo <;> cases io <;>
    (simp [netStep, inventoryEntrySpec, strTruthy, bne_iff_ne]
     try (split_ifs <;> simp_all))

theorem foldl_netStep (cname : String) (nets : List (String × NetInfo)) :
    ∀ acc, nets.foldl (netStep cname) acc =
      (acc.1 ++ nets.filterMap (inventoryEntrySpec cname),
       indexOfEntries (nets.filterMap (inventoryEntrySpec cname)) acc.2) := by
  induction nets with
  | nil => intro acc; simp [indexOfEntries]
  | cons p rest ih =>
    intro acc
    rw [List.foldl_cons, netStep_eq]
    cases he : inventoryEntrySpec cname p with
    | none => rw [ih]; simp [List.filterMap_cons, he]
    | some e =>
      rw [ih]
      simp only [List.filterMap_cons, he, indexOfEntries, List.foldl_cons,
        List.append_assoc, List.singleton_append]

theorem get_containers_eq (cs : List DockerContainer) :
    get_containers cs = (containersSpec cs, indexOfEntries (containersSpec cs) []) := by
  suffices H : ∀ acc,
      cs.foldl (fun acc c => c.networks.foldl (netStep c.name) acc) acc =
        (acc.1 ++ containersSpec cs, indexOfEntries (containersSpec cs) acc.2) by
    simpa [get_containers] using H ([], [])
  induction cs with
  | nil => intro acc; simp [containersSpec, indexOfEntries]
  | cons c rest ih =>
    intro acc
    rw [List.foldl_cons, foldl_netStep, ih]
    simp [containersSpec, List.flatMap_cons, indexOfEntries, List.foldl_append,
      List.append_assoc]

theorem dget_indexOfEntries (l : List ContainerEntry) :
    ∀ (d : List (String × ContainerEntry)) (m : String),
      dget (indexOfEntries l d) m =
        match lastMac l m with
        | some e => some e
        | none => dget d m := by
  induction l with
  | nil => intro d m; simp [indexOfEntries, lastMac]
  | cons e rest ih =>
    intro d m
    have hstep : indexOfEntries (e :: rest) d = indexOfEntries rest (dinsert d e.mac e) := rfl
    rw [hstep, ih, dget_dinsert]
    cases hl : lastMac rest m with
    | some x => simp [lastMac, hl]
    | none => by_cases he : e.mac = m <;> simp [lastMac, hl, he]

theorem lastMac_eq_none {l : List ContainerEntry} {m : String}
    (h : ∀ e ∈ l, e.mac ≠ m) : lastMac l m = none := by
  induction l with
  | nil => rfl
  | cons e rest ih =>
    have hrest : lastMac rest m = none :=
      ih fun x hx => h x (List.mem_cons_of_mem e hx)
    simp [lastMac, hrest, h e (List.mem_cons_self e rest)]

theorem inventoryEntrySpec_mac {cname : String} {p : String × NetInfo}
    {e : ContainerEntry} (h : inventoryEntrySpec cname p = some e) :
    ∃ m, e.mac = pyLower m := by
  obtain ⟨pname, mo, io⟩ := p
  cases mo with
  | none => simp [inventoryEntrySpec] at h
  | some m =>
    cases io with
    | none => simp [inventoryEntrySpec] at h
    | some i =>
      by_cases hc : m ≠ "" ∧ i ≠ ""
      · simp only [inventoryEntrySpec, if_pos hc] at h
        cases h
        exact ⟨m, rfl⟩
      · simp [inventoryEntrySpec, if_neg hc] at h

/-! ## Concrete fixtures shared by several claims -/

/-- The spec's example container. -/
def plexEntry : ContainerEntry := ⟨"plex", "br0", "aa:bb:cc:00:00:01", "10.0.0.50"⟩

/-- A configuration with host, API key, and default network id `net1`. -/
def cfgNet1 : Config := ⟨"https://ctrl", "", "", "default", "net1", false, "key1"⟩

/-- A configuration with host and API key but no default network id. -/
def cfgNoDefault : Config := ⟨"https://ctrl", "", "", "default", "", false, "key1"⟩

/-- The create payload the code actually POSTs for the spec's example. -/
def createPayloadActual : Rec :=
  [("mac", .str "aa:bb:cc:00:00:01"), ("name", .str "plex"),
   ("fixed_ip", .str "10.0.0.50"), ("use_fixedip", .bool true),
   ("network_id", .str "net1")]

/-- The create payload claim C2 predicts, with its key `use_fixed_ip`. -/
def createPayloadClaimed : Rec :=
  [("mac", .str "aa:bb:cc:00:00:01"), ("name", .str "plex"),
   ("fixed_ip", .str "10.0.0.50"), ("use_fixed_ip", .bool true),
   ("network_id", .str "net1")]

/-- An existing controller client carrying extra fields, among them
`use_fixedip: false` and `note: "keep-me"`. -/
def existingKeepMe : Rec :=
  [("_id", .str "x1"), ("mac", .str "aa:bb:cc:00:00:01"), ("name", .str "old"),
   ("network_id", .str "net1"), ("note", .str "keep-me"),
   ("use_fixedip", .bool false)]

/-! ## Claim C2 (create payload) -/

/-- C2, counterexample: on the claim's own example the create payload
carries the key `use_fixedip`, not `use_fixed_ip`; the POST payload the
code sends differs from the claimed one and has no `use_fixed_ip` key
at all. -/
theorem C2_counterexample :
    upsert_client cfgNet1 plexEntry none =
      .ok (.post "https://ctrl/proxy/network/api/s/default/rest/user"
          createPayloadActual,
        "Created aa:bb:cc:00:00:01 -> plex @ 10.0.0.50") ∧
    createPayloadActual ≠ createPayloadClaimed ∧
    dget createPayloadActual "use_fixed_ip" = none ∧
    dget createPayloadActual "use_fixedip" = some (.bool true) :=
  ⟨rfl, by decide, by decide, by decide⟩

/-- C2, amended: with no existing client and a non-empty configured
default network id, the create request is a POST to the site's client
collection whose payload is exactly
`{mac, name, fixed_ip, use_fixedip: true, network_id}` (the code's key
is `use_fixedip`, not the claimed `use_fixed_ip`), and the message is
`Created {mac} -> {name} @ {ip}`, for any container whose MAC is
already lowercase. -/
theorem C2_create_payload (cfg : Config) (c : ContainerEntry)
    (hmac : pyLower c.mac = c.mac) (hnet : cfg.networkId ≠ "") :
    upsert_client cfg c none =
      .ok (.post (cfg.host ++ "/proxy/network/api/s/" ++ cfg.site ++ "/rest/user")
          [("mac", .str c.mac), ("name", .str c.name), ("fixed_ip", .str c.ip),
           ("use_fixedip", .bool true), ("network_id", .str cfg.networkId)],
        "Created " ++ c.mac ++ " -> " ++ c.name ++ " @ " ++ c.ip) := by
  have hres : resolveNetworkId cfg none = .str cfg.networkId := rfl
  have htr : (JVal.str cfg.networkId).truthy = true := by
    simp [JVal.truthy, bne_iff_ne, hnet]
  simp [upsert_client, htr, hres, desiredFields, dmerge, dinsert, hmac]

/-- C2 witness: the amended statement at the spec's example inputs. -/
theorem C2_create_payload_witness :
    upsert_client cfgNet1 plexEntry none =
      .ok (.post (cfgNet1.host ++ "/proxy/network/api/s/" ++ cfgNet1.site ++ "/rest/user")
          [("mac", .str plexEntry.mac), ("name", .str plexEntry.name),
           ("fixed_ip", .str plexEntry.ip), ("use_fixedip", .bool true),
           ("network_id", .str cfgNet1.networkId)],
        "Created " ++ plexEntry.mac ++ " -> " ++ plexEntry.name ++ " @ " ++ plexEntry.ip) :=
  C2_create_payload cfgNet1 plexEntry (by decide) (by decide)

/-! ## Claim C4 (non-destructive update merge) -/

/-- C4, counterexample: with an existing record carrying
`use_fixedip: false` — a key outside the claim's preserved-set
`{name, fixed_ip, use_fixed_ip, network_id}` — the PUT payload does not
map that key to its existing value: the code overwrites `use_fixedip`
with `true`. -/
theorem C4_counterexample :
    upsert_client cfgNet1 plexEntry (some existingKeepMe) =
      .ok (.put "https://ctrl/proxy/network/api/s/default/rest/user/x1"
          (dmerge existingKeepMe (desiredFields plexEntry (.str "net1"))),
        "Updated aa:bb:cc:00:00:01 -> plex @ 10.0.0.50") ∧
    ("use_fixedip" ∉ (["name", "fixed_ip", "use_fixed_ip", "network_id"] : List String)) ∧
    dget existingKeepMe "use_fixedip" = some (.bool false) ∧
    dget (dmerge existingKeepMe (desiredFields plexEntry (.str "net1"))) "use_fixedip" =
      some (.bool true) :=
  ⟨rfl, by decide, by decide, by decide⟩

/-- C4, amended: for every upsert with an existing client (and a truthy
resolved network id), the PUT goes to the client's resource URL and its
payload maps every key of the existing record outside
`{name, fixed_ip, use_fixedip, network_id}` (the code's key is
`use_fixedip`, not the claimed `use_fixed_ip`) to its existing value
verbatim — in particular `mac` and `note` stay the existing record's —
the four desired fields overwrite, and the message is
`Updated {mac} -> {name} @ {ip}`. -/
theorem C4_update_merge (cfg : Config) (c : ContainerEntry) (e : Rec)
    (htr : (resolveNetworkId cfg (some e)).truthy = true) :
    upsert_client cfg c (some e) =
      .ok (.put (cfg.host ++ "/proxy/network/api/s/" ++ cfg.site ++
            "/rest/user/" ++ dgetS e "_id")
          (dmerge e (desiredFields c (resolveNetworkId cfg (some e)))),
        "Updated " ++ pyLower c.mac ++ " -> " ++ c.name ++ " @ " ++ c.ip) ∧
    (∀ k, k ∉ (["name", "fixed_ip", "use_fixedip", "network_id"] : List String) →
      dget (dmerge e (desiredFields c (resolveNetworkId cfg (some e)))) k = dget e k) ∧
    dget (dmerge e (desiredFields c (resolveNetworkId cfg (some e)))) "name" =
      some (.str c.name) ∧
    dget (dmerge e (desiredFields c (resolveNetworkId cfg (some e)))) "fixed_ip" =
      some (.str c.ip) ∧
    dget (dmerge e (desiredFields c (resolveNetworkId cfg (some e)))) "use_fixedip" =
      some (.bool true) ∧
    dget (dmerge e (desiredFields c (resolveNetworkId cfg (some e)))) "network_id" =
      some (resolveNetworkId cfg (some e)) := by
  refine ⟨by simp [upsert_client, htr], ?_, ?_, ?_, ?_, ?_⟩
  · intro k hk
    have hk4 : ¬(k = "name") ∧ ¬(k = "fixed_ip") ∧ ¬(k = "use_fixedip") ∧
        ¬(k = "network_id") := by simpa [not_or] using hk
    have hnone : lastKV (desiredFields c (resolveNetworkId cfg (some e))) k = none := by
      simp [desiredFields, lastKV, Ne.symm hk4.1, Ne.symm hk4.2.1,
        Ne.symm hk4.2.2.1, Ne.symm hk4.2.2.2]
    rw [dget_dmerge, hnone]
  · rw [dget_dmerge]; simp [desiredFields, lastKV]
  · rw [dget_dmerge]; simp [desiredFields, lastKV]
  · rw [dget_dmerge]; simp [desiredFields, lastKV]
  · rw [dget_dmerge]; simp [desiredFields, lastKV]

/-- C4 witness: the amended statement at the spec's `keep-me` example. -/
theorem C4_update_merge_witness :
    upsert_client cfgNet1 plexEntry (some existingKeepMe) =
      .ok (.put (cfgNet1.host ++ "/proxy/network/api/s/" ++ cfgNet1.site ++
            "/rest/user/" ++ dgetS existingKeepMe "_id")
          (dmerge existingKeepMe
            (desiredFields plexEntry (resolveNetworkId cfgNet1 (some existingKeepMe)))),
        "Updated " ++ pyLower plexEntry.mac ++ " -> " ++ plexEntry.name ++
          " @ " ++ plexEntry.ip) ∧
    (∀ k, k ∉ (["name", "fixed_ip", "use_fixedip", "network_id"] : List String) →
      dget (dmerge existingKeepMe
          (desiredFields plexEntry (resolveNetworkId cfgNet1 (some existingKeepMe)))) k =
        dget existingKeepMe k) ∧
    dget (dmerge existingKeepMe
        (desiredFields plexEntry (resolveNetworkId cfgNet1 (some existingKeepMe)))) "name" =
      some (.str plexEntry.name) ∧
    dget (dmerge existingKeepMe
        (desiredFields plexEntry (resolveNetworkId cfgNet1 (some existingKeepMe)))) "fixed_ip" =
      some (.str plexEntry.ip) ∧
    dget (dmerge existingKeepMe
        (desiredFields plexEntry (resolveNetworkId cfgNet1 (some existingKeepMe)))) "use_fixedip" =
      some (.bool true) ∧
    dget (dmerge existingKeepMe
        (desiredFields plexEntry (resolveNetworkId cfgNet1 (some existingKeepMe)))) "network_id" =
      some (resolveNetworkId cfgNet1 (some existingKeepMe)) :=
  C4_update_merge cfgNet1 plexEntry existingKeepMe (by decide)

/-! ## Claim C3 (network id resolution) -/

/-- C3: the network id is resolved with precedence
`existing.network_id`, else `existing.network`, else the configured
default; when nothing truthy resolves, the upsert fails with the
`ValueError` message naming the MAC, and at handler level `api_apply`
then answers 502 with exactly the calls `[inventoryRead, listClients]` —
no create or update write is attempted. -/
theorem C3_network_id_resolution :
    (∀ (cfg : Config) (ex : Option Rec) (v : JVal),
       dget (ex.getD []) "network_id" = some v → v.truthy = true →
       resolveNetworkId cfg ex = v) ∧
    (∀ (cfg : Config) (ex : Option Rec) (v : JVal),
       otruthy (dget (ex.getD []) "network_id") = false →
       dget (ex.getD []) "network" = some v → v.truthy = true →
       resolveNetworkId cfg ex = v) ∧
    (∀ (cfg : Config) (ex : Option Rec),
       otruthy (dget (ex.getD []) "network_id") = false →
       otruthy (dget (ex.getD []) "network") = false →
       resolveNetworkId cfg ex = .str cfg.networkId) ∧
    (∀ (cfg : Config) (c : ContainerEntry) (ex : Option Rec),
       (resolveNetworkId cfg ex).truthy = false →
       upsert_client cfg c ex = .error (networkIdErrorMsg (pyLower c.mac))) ∧
    (∀ (cfg : Config) (env : Env) (body : Option Rec) (m : String)
       (container : ContainerEntry) (data : List Rec) (msg : String),
       ensure_configured cfg = none →
       requestMac body = m → m ≠ "" →
       dget (get_containers env.containers).2 m = some container →
       env.fetchResult = .ok data →
       upsert_client cfg container (dget (fetch_clients data) m) = .error msg →
       api_apply cfg env body = (.err 502 msg, [.inventoryRead, .listClients])) := by
  refine ⟨?_, ?_, ?_, ?_, ?_⟩
  · intro cfg ex v h htr
    simp [resolveNetworkId, pyOrJ, h, htr]
  · intro cfg ex v h1 h2 htr
    cases hx : dget (ex.getD []) "network_id" with
    | none => simp [resolveNetworkId, pyOrJ, hx, h2, htr]
    | some w =>
      have hw : w.truthy = false := by simpa [otruthy, hx] using h1
      simp [resolveNetworkId, pyOrJ, hx, hw, h2, htr]
  · intro cfg ex h1 h2
    cases hx : dget (ex.getD []) "network_id" with
    | none =>
      cases hy : dget (ex.getD []) "network" with
      | none => simp [resolveNetworkId, pyOrJ, hx, hy]
      | some w =>
        have hw : w.truthy = false := by simpa [otruthy, hy] using h2
        simp [resolveNetworkId, pyOrJ, hx, hy, hw]
    | some w =>
      have hw : w.truthy = false := by simpa [otruthy, hx] using h1
      cases hy : dget (ex.getD []) "network" with
      | none => simp [resolveNetworkId, pyOrJ, hx, hy, hw]
      | some u =>
        have hu : u.truthy = false := by simpa [otruthy, hy] using h2
        simp [resolveNetworkId, pyOrJ, hx, hy, hw, hu]
  · intro cfg c ex h
    simp [upsert_client, h]
  · intro cfg env body m container data msg hcfg hmac hne hcont hfetch hup
    obtain ⟨hlogin, hauth, hnets⟩ := login_of_configured env hcfg
    simp [api_apply, hcfg, hmac, hne, hcont, applySession, hlogin, hauth,
      hnets, hfetch, hup]

/-- C3 witness: with no existing client, no existing network fields and
no configured default, the upsert fails naming the MAC. -/
theorem C3_network_id_resolution_witness :
    upsert_client cfgNoDefault plexEntry none =
      .error (networkIdErrorMsg (pyLower plexEntry.mac)) :=
  C3_network_id_resolution.2.2.2.1 cfgNoDefault plexEntry none (by decide)

/-! ## Handler helpers -/

/-- An environment in which every outbound call succeeds and both the
inventory and the controller's client list are empty. -/
def envOk : Env := ⟨[], .ok (), .ok (), .ok [], .ok ()⟩

/-- A configuration with host and username+password but no API key. -/
def cfgUserPass : Config := ⟨"https://ctrl", "admin", "pw", "default", "", false, ""⟩

theorem requestMac_single (m : String) :
    requestMac (some [("mac", JVal.str m)]) = pyLower m := by
  simp [requestMac, dgetS, dget]

theorem api_apply_congr_mac (cfg : Config) (env : Env) {b1 b2 : Option Rec}
    (h : requestMac b1 = requestMac b2) :
    api_apply cfg env b1 = api_apply cfg env b2 := by
  unfold api_apply
  rw [h]

theorem apply_trace_ne_nil {cfg : Config} (env : Env) {body : Option Rec}
    (hcfg : ensure_configured cfg = none) (hm : requestMac body ≠ "") :
    (api_apply cfg env body).2 ≠ [] := by
  obtain ⟨hlogin, hauth, hnets⟩ := login_of_configured env hcfg
  cases hd : dget (get_containers env.containers).2 (requestMac body) with
  | none => simp [api_apply, hcfg, hm, hd]
  | some container =>
    simp only [api_apply, hcfg, if_neg hm, hd]
    unfold applySession
    rw [hlogin, hauth, hnets]
    cases env.fetchResult with
    | error e => simp
    | ok data =>
      cases hup : upsert_client cfg container (dget (fetch_clients data) (requestMac body)) with
      | error msg => simp [hup]
      | ok rm => cases hwr : env.writeResult <;> simp [hup, hwr]

theorem status_trace_ne_nil {cfg : Config} (env : Env)
    (hcfg : ensure_configured cfg = none) :
    (api_status cfg env).2 ≠ [] := by
  obtain ⟨hlogin, hauth, hnets⟩ := login_of_configured env hcfg
  simp only [api_status, hcfg]
  rw [hlogin, hauth, hnets]
  cases env.fetchResult <;> simp

/-! ## Claim C1 (configuration gate) -/

/-- C1, counterexample: with host and username+password configured but
no API key, configuration validation does not pass: `ensure_configured`
reports the error and both handlers answer 500 with no network call
attempted, contradicting the claim's "in particular" sentence. -/
theorem C1_counterexample :
    ensure_configured cfgUserPass = some configErrorMsg ∧
    api_status cfgUserPass envOk = (.err 500 configErrorMsg, []) ∧
    api_apply cfgUserPass envOk (some [("mac", JVal.str "aa:bb")]) =
      (.err 500 configErrorMsg, []) :=
  ⟨rfl, rfl, rfl⟩

/-- C1, amended: each handler returns the configuration error (HTTP
500, with no network call attempted) exactly when the host or the API
key is absent; username+password are never consulted by the gate, so a
request with host and username+password configured but no API key is
rejected rather than passed on. -/
theorem C1_config_gate (cfg : Config) (env : Env) (body : Option Rec) :
    (api_apply cfg env body = (.err 500 configErrorMsg, []) ↔
      (cfg.host = "" ∨ cfg.apiKey = "")) ∧
    (api_status cfg env = (.err 500 configErrorMsg, []) ↔
      (cfg.host = "" ∨ cfg.apiKey = "")) := by
  by_cases hc : cfg.host = "" ∨ cfg.apiKey = ""
  · have hcfg : ensure_configured cfg = some configErrorMsg := by
      unfold ensure_configured
      rw [if_pos hc]
    constructor <;> simp [api_apply, api_status, hcfg, hc]
  · have hcfg : ensure_configured cfg = none := by
      unfold ensure_configured
      rw [if_neg hc]
    constructor
    · simp only [hc, iff_false]
      intro heq
      by_cases hm : requestMac body = ""
      · have h400 : api_apply cfg env body = (.err 400 "mac is required", []) := by
          simp [api_apply, hcfg, hm]
        rw [h400] at heq
        simp [configErrorMsg] at heq
      · exact apply_trace_ne_nil env hcfg hm (congrArg Prod.snd heq)
    · simp only [hc, iff_false]
      intro heq
      exact status_trace_ne_nil env hcfg (congrArg Prod.snd heq)

/-! ## Claim C5 (case-insensitive MAC matching) -/

/-- C5: every key of the controller index is the lowercased `mac` field
of its record and records without a MAC are dropped; every inventory
entry's MAC is already lowercase; applying a MAC gives the same result
as applying its lowercase form; and an uppercase controller MAC matches
the lowercase lookup key. -/
theorem C5_mac_case_insensitive :
    (∀ (data : List Rec) (m : String) (c : Rec),
       dget (fetch_clients data) m = some c →
       otruthy (dget c "mac") = true ∧ m = pyLower (dgetS c "mac")) ∧
    (∀ cs : List DockerContainer, ∀ e ∈ (get_containers cs).1, e.mac = pyLower e.mac) ∧
    (∀ (cfg : Config) (env : Env) (m : String),
       api_apply cfg env (some [("mac", JVal.str m)]) =
         api_apply cfg env (some [("mac", JVal.str (pyLower m))])) ∧
    dget (fetch_clients [[("mac", JVal.str "AA:BB:CC:DD:EE:FF")]]) "aa:bb:cc:dd:ee:ff" =
      some [("mac", JVal.str "AA:BB:CC:DD:EE:FF")] := by
  refine ⟨dget_fetch_clients, ?_, ?_, by rfl⟩
  · intro cs e he
    have h1 : (get_containers cs).1 = containersSpec cs := by rw [get_containers_eq]
    rw [h1] at he
    unfold containersSpec at he
    obtain ⟨c, hc, he2⟩ := List.mem_flatMap.mp he
    obtain ⟨p, hp, hpe⟩ := List.mem_filterMap.mp he2
    obtain ⟨m, hm⟩ := inventoryEntrySpec_mac hpe
    rw [hm, pyLower_idem]
  · intro cfg env m
    apply api_apply_congr_mac
    rw [requestMac_single, requestMac_single, pyLower_idem]

/-! ## Claim C6 (inventory reader) -/

/-- C6: the Inventory Reader emits exactly the declarative entry list —
one entry per (running container, attached interface) pair with both a
non-empty MAC and IP, in order, every other interface excluded — and
its lookup index answers exactly the last emitted entry for a MAC; a
MAC no emitted entry carries is absent from the index. -/
theorem C6_inventory_reader (cs : List DockerContainer) :
    (get_containers cs).1 = containersSpec cs ∧
    (∀ m, dget (get_containers cs).2 m = lastMac (containersSpec cs) m) ∧
    (∀ m, (∀ e ∈ (get_containers cs).1, e.mac ≠ m) →
      dget (get_containers cs).2 m = none) := by
  have hq := get_containers_eq cs
  have h1 : (get_containers cs).1 = containersSpec cs := by rw [hq]
  have h2 : ∀ m, dget (get_containers cs).2 m = lastMac (containersSpec cs) m := by
    intro m
    have h2a : (get_containers cs).2 = indexOfEntries (containersSpec cs) [] := by rw [hq]
    rw [h2a, dget_indexOfEntries]
    cases lastMac (containersSpec cs) m <;> simp [dget]
  refine ⟨h1, h2, ?_⟩
  intro m hnone
  rw [h2 m]
  exact lastMac_eq_none fun e he => hnone e (by rw [h1]; exact he)

/-! ## Claim C7 (apply with unknown MAC) -/

/-- C7: an apply whose (lowercased) MAC is absent from the freshly read
container index answers 404 naming the MAC, with the inventory read as
the only call — no controller authentication, listing or upsert — and
the outcome depends only on the current container inventory, not on any
earlier response. -/
theorem C7_apply_not_found (cfg : Config) (env : Env) (body : Option Rec)
    (m : String) (hcfg : ensure_configured cfg = none)
    (hm : requestMac body = m) (hne : m ≠ "")
    (hnone : dget (get_containers env.containers).2 m = none) :
    api_apply cfg env body =
      (.err 404 ("No running container with MAC " ++ m), [.inventoryRead]) ∧
    (∀ env2 : Env, env2.containers = env.containers →
      api_apply cfg env2 body = api_apply cfg env body) := by
  have key : ∀ env2 : Env, env2.containers = env.containers →
      api_apply cfg env2 body =
        (.err 404 ("No running container with MAC " ++ m), [.inventoryRead]) := by
    intro env2 h2
    simp [api_apply, hcfg, hm, hne, h2, hnone]
  have h1 := key env rfl
  exact ⟨h1, fun env2 h2 => by rw [key env2 h2, h1]⟩

/-- C7 witness: the 404 case at a concrete configuration, empty
inventory and a concrete MAC. -/
theorem C7_apply_not_found_witness :
    api_apply cfgNet1 envOk (some [("mac", JVal.str "aa:bb:cc:dd:ee:99")]) =
      (.err 404 ("No running container with MAC " ++ "aa:bb:cc:dd:ee:99"),
        [.inventoryRead]) ∧
    (∀ env2 : Env, env2.containers = envOk.containers →
      api_apply cfgNet1 env2 (some [("mac", JVal.str "aa:bb:cc:dd:ee:99")]) =
        api_apply cfgNet1 envOk (some [("mac", JVal.str "aa:bb:cc:dd:ee:99")])) :=
  C7_apply_not_found cfgNet1 envOk (some [("mac", JVal.str "aa:bb:cc:dd:ee:99")])
    "aa:bb:cc:dd:ee:99" (by decide) (by decide) (by decide) (by decide)

/-! ## Claim C8 (apply without a MAC) -/

/-- C8: an apply whose body lacks a `mac` field or carries an empty one
answers 400 with `mac is required` and attempts no call of any kind —
the attempted-call trace is empty, so neither the inventory read nor
any controller call happens. -/
theorem C8_apply_missing_mac (cfg : Config) (env : Env) (body : Option Rec)
    (hcfg : ensure_configured cfg = none)
    (hm : dgetS (body.getD []) "mac" = "") :
    api_apply cfg env body = (.err 400 "mac is required", []) := by
  have hreq : requestMac body = "" := by
    rw [requestMac, hm]
    rfl
  simp [api_apply, hcfg, hreq]

/-- C8 witness: the validation error at a concrete configuration and an
empty request object. -/
theorem C8_apply_missing_mac_witness :
    api_apply cfgNet1 envOk (some []) = (.err 400 "mac is required", []) :=
  C8_apply_missing_mac cfgNet1 envOk (some []) (by decide) (by decide)

/-! ## Claim C9 (secondary login absorbed, other failures surface) -/

/-- C9: neither handler's outcome depends on the secondary
network-application login's result (its failure is absorbed and the
request proceeds), while a client-listing failure and an upsert-write
failure each surface as the response — in `api_status` as 502, in
`api_apply` with the upstream status (or 502 without one). -/
theorem C9_secondary_login_absorbed :
    (∀ (cfg : Config) (cs : List DockerContainer) (lr ln ln2 : Except HttpErr Unit)
       (fu : Except HttpErr (List Rec)) (wr : Except HttpErr Unit) (body : Option Rec),
       api_apply cfg ⟨cs, lr, ln, fu, wr⟩ body = api_apply cfg ⟨cs, lr, ln2, fu, wr⟩ body) ∧
    (∀ (cfg : Config) (cs : List DockerContainer) (lr ln ln2 : Except HttpErr Unit)
       (fu : Except HttpErr (List Rec)) (wr : Except HttpErr Unit),
       api_status cfg ⟨cs, lr, ln, fu, wr⟩ = api_status cfg ⟨cs, lr, ln2, fu, wr⟩) ∧
    (∀ (cfg : Config) (env : Env) (e : HttpErr),
       ensure_configured cfg = none → env.fetchResult = .error e →
       api_status cfg env = (.err 502 ("Unable to reach UniFi: " ++ e.text),
         [.inventoryRead, .listClients])) ∧
    (∀ (cfg : Config) (env : Env) (body : Option Rec) (m : String)
       (container : ContainerEntry) (e : HttpErr),
       ensure_configured cfg = none → requestMac body = m → m ≠ "" →
       dget (get_containers env.containers).2 m = some container →
       env.fetchResult = .error e →
       api_apply cfg env body = (.err (e.status.getD 502) e.text,
         [.inventoryRead, .listClients])) ∧
    (∀ (cfg : Config) (env : Env) (body : Option Rec) (m : String)
       (container : ContainerEntry) (data : List Rec)
       (rm : UpsertRequest × String) (e : HttpErr),
       ensure_configured cfg = none → requestMac body = m → m ≠ "" →
       dget (get_containers env.containers).2 m = some container →
       env.fetchResult = .ok data →
       upsert_client cfg container (dget (fetch_clients data) m) = .ok rm →
       env.writeResult = .error e →
       api_apply cfg env body = (.err (e.status.getD 502) e.text,
         [.inventoryRead, .listClients, .upsertWrite])) := by
  refine ⟨fun cfg cs lr ln ln2 fu wr body => rfl,
          fun cfg cs lr ln ln2 fu wr => rfl, ?_, ?_, ?_⟩
  · intro cfg env e hcfg hfetch
    obtain ⟨hlogin, hauth, hnets⟩ := login_of_configured env hcfg
    simp [api_status, hcfg, hlogin, hauth, hnets, hfetch]
  · intro cfg env body m container e hcfg hm hne hcont hfetch
    obtain ⟨hlogin, hauth, hnets⟩ := login_of_configured env hcfg
    simp [api_apply, hcfg, hm, hne, hcont, applySession, hlogin, hauth, hnets, hfetch]
  · intro cfg env body m container data rm e hcfg hm hne hcont hfetch hup hwr
    obtain ⟨hlogin, hauth, hnets⟩ := login_of_configured env hcfg
    simp [api_apply, hcfg, hm, hne, hcont, applySession, hlogin, hauth, hnets,
      hfetch, hup, hwr]

/-! ## Claim C10 (absent or unparseable body) -/

/-- C10: an absent or unparseable JSON body is treated as the empty
object by the silent parse, so the request gets exactly the empty-body
behavior — on a configured instance the 400 `mac is required`
validation error, never a parse or server error. -/
theorem C10_silent_body_parse (cfg : Config) (env : Env) :
    api_apply cfg env none = api_apply cfg env (some []) ∧
    (ensure_configured cfg = none →
      api_apply cfg env none = (.err 400 "mac is required", [])) := by
  constructor
  · rfl
  · intro hcfg
    have hreq : requestMac none = "" := rfl
    simp [api_apply, hcfg, hreq]

end UbiUnraid
